import Mathlib

/-!
Verification of the cbsummary cluster-summary tool.

Shallow embedding of the two Go source files:
* `part_000` (`cbsummary.go`-style main): report types, the per-cluster
  node-failover polling loop, fleet aggregation, CSV and JSON rendering;
* `part_001` (`restClient.go`-style client): REST client, error taxonomy
  (`RestClientError`, `UnknownAuthorityError`, `HttpError`), the response
  status classification in `executeRequest`, and the `/pools` and
  `/pools/default` payload types.

Modelling conventions:
* Go `float64` fields are modelled as `ℚ`.  Every arithmetic operation the
  claims touch (division by powers of two) is exact in binary floating
  point whenever it is exact in `ℚ`, so the model is faithful on those
  operations.
* Go `error` values held by the polling loop are represented by the string
  their `Error()` method renders, since the loop only ever stores them and
  later renders them into the report.
* Go maps used as version histograms are modelled as association lists in
  insertion order; no claim depends on key ordering, and a comment marks
  the one place (`json.Marshal` of a map) where Go would sort keys.
* The network is abstracted as an environment `Env` mapping a configured
  `RestClient` to the outcome of each of the two GET requests, because the
  HTTP stack itself is Go standard library, external to this repository.
-/

/-- JSON values, used to model what `encoding/json` marshalling of the
report types produces.  Objects keep fields in Go struct order (the order
`json.Marshal` emits struct fields). -/
inductive Json where
  | str : String → Json
  | num : ℚ → Json
  | bool : Bool → Json
  | arr : List Json → Json
  | obj : List (String × Json) → Json
deriving Repr

/-- Config-file entry for one cluster (`part_001`, type `Cluster`):
`Login`, `Pass` and `Nodes` with JSON tags `login`, `pass`, `nodes`. -/
structure Cluster where
  login : String
  pass : String
  nodes : List String
deriving DecidableEq, Repr

/-- Payload of `GET /pools` that the tool uses (`part_001`, type `Pools`).
The `componentsVersion` sub-object is decoded but never read, so it is
omitted from the model. -/
structure Pools where
  implementationVersion : String
  isEnterprise : Bool
  uuid : String
deriving DecidableEq, Repr

/-- `part_001`, type `NodeStats` (JSON `interestingStats`), all float64. -/
structure NodeStats where
  cmd_get : ℚ
  couch_docs_actual_disk_size : ℚ
  couch_docs_data_size : ℚ
  couch_spatial_data_size : ℚ
  couch_spatial_disk_size : ℚ
  couch_views_actual_disk_size : ℚ
  couch_views_data_size : ℚ
  curr_items : ℚ
  curr_items_tot : ℚ
  ep_bg_fetched : ℚ
  get_hits : ℚ
  mem_used : ℚ
  ops : ℚ
  vb_active_num_non_resident : ℚ
  vb_replica_curr_items : ℚ
deriving DecidableEq, Repr

/-- `part_001`, type `SysStats` (JSON `systemStats`).  `part_000` line 223
reads `nodeInfo.SystemStats.CPU_cores_available`; the `SysStats`
declaration under `src` (an older revision) lists only the other five
fields, so that one field is Modelled from the spec: `NodeInfo`'s
`cpuCoresAvailable` ("only populated by servers ≥ version 6.5"). -/
structure SysStats where
  cpu_utilization_rate : ℚ
  cpu_cores_available : ℚ
  mem_free : ℚ
  mem_total : ℚ
  swap_total : ℚ
  swap_used : ℚ
deriving DecidableEq, Repr

/-- `part_001`, type `NodeInfo`: one node of `/pools/default`. -/
structure NodeInfo where
  clusterMembership : String
  hostname : String
  interestingStats : NodeStats
  mcdMemoryAllocated : ℚ
  mcdMemoryReserved : ℚ
  memoryFree : ℚ
  memoryTotal : ℚ
  os : String
  services : List String
  status : String
  systemStats : SysStats
  uptime : String
  version : String
deriving DecidableEq, Repr

/-- `part_001`, type `HDDStorageInfo`.  Note the Go tag on `QuotaTotal`
is the empty string, so `json.Marshal` falls back to the field name. -/
structure HDDStorageInfo where
  free : ℚ
  quotaTotal : ℚ
  total : ℚ
  used : ℚ
  usedByData : ℚ
deriving DecidableEq, Repr

/-- `part_001`, type `RAMStorageInfo` (tag of `QuotaUsedPerNode` is the
source's misspelt `quataUsedPerNode`). -/
structure RAMStorageInfo where
  quotaTotal : ℚ
  quotaTotalPerNode : ℚ
  quotaUsed : ℚ
  quotaUsedPerNode : ℚ
  total : ℚ
  used : ℚ
  usedByData : ℚ
deriving DecidableEq, Repr

/-- `part_001`, type `ClusterStorageInfo`. -/
structure ClusterStorageInfo where
  hdd : HDDStorageInfo
  ram : RAMStorageInfo
deriving DecidableEq, Repr

/-- Payload of `GET /pools/default` that the tool uses (`part_001`, type
`PoolsDefault`).  The `alerts` field is decoded but never read. -/
structure PoolsDefault where
  balanced : Bool
  clusterName : String
  ftsMemoryQuota : Int
  indexMemoryQuota : Int
  memoryQuota : Int
  name : String
  nodes : List NodeInfo
  rebalanceStatus : String
  storageTotals : ClusterStorageInfo
deriving DecidableEq, Repr

/-- `part_001`, type `ClusterSummary`: the full-report record. -/
structure ClusterSummary where
  implementationVersion : String
  isEnterprise : Bool
  uuid : String
  balanced : Bool
  clusterName : String
  ftsMemoryQuota : Int
  indexMemoryQuota : Int
  memoryQuota : Int
  name : String
  nodeCount : Nat
  nodeVersions : List (String × Nat)
  nodes : List NodeInfo
  rebalanceStatus : String
  storageTotals : ClusterStorageInfo
deriving DecidableEq, Repr

/-- `part_000`, type `BriefNode`: per-node entry of the brief report.
Go fields `Cores`, `RAM`, `Name`, `Version` with JSON tags
`cpu_cores_available`, `mem_total`, `hostname`, `version`. -/
structure BriefNode where
  cores : ℚ
  ram : ℚ
  name : String
  version : String
deriving DecidableEq, Repr

/-- `part_000`, type `BriefCluster` (tags `nodes`, `cluster_size`,
`cluster_uuid`). -/
structure BriefCluster where
  nodes : List BriefNode
  size : Nat
  uuid : String
deriving DecidableEq, Repr

/-- `part_000`, type `ClusterError` (tags `error_with_cluster`,
`error_message`). -/
structure ClusterError where
  theCluster : Cluster
  errMsg : String
deriving DecidableEq, Repr

/-- The three shapes a slot of `SummaryInfo.Clusters` can hold.  The Go
code uses a `[]interface{}` slot assigned either a `*ClusterSummary`, a
`*BriefCluster` or a `*ClusterError`; the spec asks for exactly this
tagged variant. -/
inductive ClusterRecord where
  | full : ClusterSummary → ClusterRecord
  | brief : BriefCluster → ClusterRecord
  | error : ClusterError → ClusterRecord
deriving DecidableEq, Repr

/-- `part_000`, type `SummaryInfo`: the whole report (tags `#clusters`,
`#nodes`, `#nodeVersions`, `clusters`).  `NodeVersions` is a Go
`map[string]int`, modelled as an association list in insertion order. -/
structure SummaryInfo where
  numClusters : Nat
  totalNumNodes : Nat
  nodeVersions : List (String × Nat)
  clusters : List ClusterRecord
deriving DecidableEq, Repr

/-- `part_001`, type `RestClient` (fields `client`/TLS config are part of
the external HTTP stack and not modelled). -/
structure RestClient where
  secure : Bool
  host : String
  username : String
  password : String
deriving DecidableEq, Repr

/-- `part_001`, `CreateRestClient`: `secure` is whether the host string
starts with `https://`. -/
def CreateRestClient (host username password : String) : RestClient :=
  { secure := "https://".isPrefixOf host
    host := host
    username := username
    password := password }

/-- Abstraction of the network: what `GetPoolsData` and
`GetPoolsDefaultData` return for a given configured client.  Errors are
represented by their rendered `Error()` message (all the polling loop does
with them is store and print them). -/
structure Env where
  poolsData : RestClient → Except String Pools
  poolsDefaultData : RestClient → Except String PoolsDefault

/-- One observable request made by the polling loop: which endpoint was
asked of which node address. -/
inductive Call where
  | pools (node : String)
  | poolsDefault (node : String)
deriving DecidableEq, Repr

/-- Outcome of polling a cluster's node list: either both payloads from
some node, or failure with the last stored error (`none` when no node was
ever attempted, i.e. the node list was empty). -/
inductive PollResult where
  | success : Pools → PoolsDefault → PollResult
  | failure : Option String → PollResult
deriving DecidableEq, Repr

/-- The inner `for _, node := range cluster.Nodes` loop of `part_000`
main (lines 160-254), restricted to what decides control flow: try
`GetPoolsData`, on error store it and continue; else try
`GetPoolsDefaultData`, on error store it and continue; on both succeeding
stop (`break`).  The second component is the trace of requests issued, in
order. -/
def pollNodes (env : Env) (login pass : String) :
    List String → Option String → PollResult × List Call
  | [], cerr => (.failure cerr, [])
  | node :: rest, cerr =>
    let client := CreateRestClient node login pass
    match env.poolsData client with
    | .error e =>
      let r := pollNodes env login pass rest (some e)
      (r.1, .pools node :: r.2)
    | .ok p =>
      match env.poolsDefaultData client with
      | .error e =>
        let r := pollNodes env login pass rest (some e)
        (r.1, .pools node :: .poolsDefault node :: r.2)
      | .ok pd =>
        (.success p pd, [.pools node, .poolsDefault node])

/-- Both required calls succeed at this node address. -/
def nodeSucceeds (env : Env) (login pass node : String) : Bool :=
  let client := CreateRestClient node login pass
  (env.poolsData client).isOk && (env.poolsDefaultData client).isOk

/-- The error a failing node contributes (`none` when the node succeeds):
the `/pools` error if that call fails, otherwise the `/pools/default`
error. -/
def nodeError (env : Env) (login pass node : String) : Option String :=
  let client := CreateRestClient node login pass
  match env.poolsData client with
  | .error e => some e
  | .ok _ =>
    match env.poolsDefaultData client with
    | .error e => some e
    | .ok _ => none

/-- The requests the loop issues at one node before moving on (or
stopping): `/pools` alone if it fails, otherwise both endpoints. -/
def callsFor (env : Env) (login pass node : String) : List Call :=
  let client := CreateRestClient node login pass
  match env.poolsData client with
  | .error _ => [.pools node]
  | .ok _ => [.pools node, .poolsDefault node]

/-- Poll one configured cluster (the loop with `cerr` starting at Go
`nil`). -/
def pollCluster (env : Env) (c : Cluster) : PollResult :=
  (pollNodes env c.login c.pass c.nodes none).1

/-- Increment one key of a Go `map[string]int` histogram
(`m[k] = m[k] + 1`; a missing key reads as zero). -/
def bump (m : List (String × Nat)) (k : String) : List (String × Nat) :=
  match m with
  | [] => [(k, 1)]
  | (k', v) :: rest => if k' = k then (k', v + 1) :: rest else (k', v) :: bump rest k

/-- Fold `bump` over a node list: the
`for _, nodeInfo := range poolsDefaults.Nodes` histogram loops of
`part_000` (lines 201-205 and 240-242). -/
def bumpAll (m : List (String × Nat)) (nodes : List NodeInfo) : List (String × Nat) :=
  nodes.foldl (fun acc ni => bump acc ni.version) m

/-- Sum of all counts of a histogram. -/
def mapTotal (m : List (String × Nat)) : Nat :=
  (m.map Prod.snd).sum

/-- Brief per-node record (`part_000` lines 221-229): cores copied from
`SystemStats.CPU_cores_available`, RAM is `MemoryTotal` divided by 1024
three times, hostname and version copied. -/
def mkBriefNode (ni : NodeInfo) : BriefNode :=
  { cores := ni.systemStats.cpu_cores_available
    ram := ni.memoryTotal / 1024 / 1024 / 1024
    name := ni.hostname
    version := ni.version }

/-- Brief per-cluster record (`part_000` lines 217-233). -/
def mkBriefCluster (p : Pools) (pd : PoolsDefault) : BriefCluster :=
  { nodes := pd.nodes.map mkBriefNode
    size := (pd.nodes.map mkBriefNode).length
    uuid := p.uuid }

/-- Full per-cluster record (`part_000` lines 184-206). -/
def mkClusterSummary (p : Pools) (pd : PoolsDefault) : ClusterSummary :=
  { implementationVersion := p.implementationVersion
    isEnterprise := p.isEnterprise
    uuid := p.uuid
    balanced := pd.balanced
    clusterName := pd.clusterName
    ftsMemoryQuota := pd.ftsMemoryQuota
    indexMemoryQuota := pd.indexMemoryQuota
    memoryQuota := pd.memoryQuota
    name := pd.name
    nodeCount := pd.nodes.length
    nodeVersions := bumpAll [] pd.nodes
    nodes := pd.nodes
    rebalanceStatus := pd.rebalanceStatus
    storageTotals := pd.storageTotals }

/-- The record stored into `clusterSummary.Clusters[cnum]` for one
configured cluster: the Go loop body builds `thisCluster` (full mode) or
`briefCluster` (brief mode) at the first node where both calls succeed,
and lines 259-268 substitute a `ClusterError` when neither was built,
with `cerr.Error()` or `"Unknown Error"` when `cerr` is still `nil`. -/
def recordForCluster (full : Bool) (env : Env) (c : Cluster) : ClusterRecord :=
  match pollCluster env c with
  | .success p pd =>
    if full then .full (mkClusterSummary p pd) else .brief (mkBriefCluster p pd)
  | .failure cerr => .error { theCluster := c, errMsg := cerr.getD "Unknown Error" }

/-- Fleet-wide running aggregates of the main loop. -/
structure FleetAcc where
  totalNumNodes : Nat
  nodeVersions : List (String × Nat)
deriving DecidableEq, Repr

/-- Aggregate update of the main loop for one cluster: on success (either
mode) `TotalNumNodes += len(poolsDefaults.Nodes)` and one `bump` per node
into the fleet `NodeVersions`; an errored cluster updates nothing
(`part_000` lines 201-242 versus 259-268). -/
def clusterAgg (env : Env) (acc : FleetAcc) (c : Cluster) : FleetAcc :=
  match pollCluster env c with
  | .success _ pd =>
    { totalNumNodes := acc.totalNumNodes + pd.nodes.length
      nodeVersions := bumpAll acc.nodeVersions pd.nodes }
  | .failure _ => acc

/-- The assembled report (`part_000` lines 147-270): `NumClusters` is the
configured count, slot `cnum` of `Clusters` receives exactly the record
for configured cluster `cnum`, and the aggregates are folded over the
clusters in order.  The Go loop assigns the slot and updates the
aggregates in one body; both are functions of the same (deterministic)
poll outcome. -/
def buildSummary (full : Bool) (env : Env) (clusters : List Cluster) : SummaryInfo :=
  let acc := clusters.foldl (clusterAgg env) ⟨0, []⟩
  { numClusters := clusters.length
    totalNumNodes := acc.totalNumNodes
    nodeVersions := acc.nodeVersions
    clusters := clusters.map (recordForCluster full env) }

/-- Decimal digits of a natural number, most significant first
(fuel-based so the kernel can evaluate it). -/
def natDigitCharsAux : Nat → Nat → List Char
  | 0, _ => []
  | fuel + 1, n =>
    if n = 0 then [] else natDigitCharsAux fuel (n / 10) ++ [Nat.digitChar (n % 10)]

/-- Decimal representation of a natural number as characters (`%d`). -/
def natDigitChars (n : Nat) : List Char :=
  if n = 0 then ['0'] else natDigitCharsAux n n

/-- Decimal representation of a natural number as a string (`%d`). -/
def natRepr (n : Nat) : String :=
  ⟨natDigitChars n⟩

/-- Round a rational to the nearest integer, ties to even — the rounding
`fmt`'s fixed-precision float formatting performs on the exact value. -/
def roundHalfEven (q : ℚ) : Int :=
  let f := ⌊q⌋
  let frac := q - f
  if frac < 1 / 2 then f
  else if 1 / 2 < frac then f + 1
  else if f % 2 = 0 then f else f + 1

/-- Characters of Go's `fmt.Sprintf("%.1f", x)`: the value rounded to one
decimal place, sign, integer part, `'.'`, one tenths digit. -/
def fmtF1Chars (q : ℚ) : List Char :=
  let n := roundHalfEven (q * 10)
  let m := n.natAbs
  (if n < 0 then ['-'] else []) ++ natDigitChars (m / 10) ++ ['.'] ++ [Nat.digitChar (m % 10)]

/-- Go's `fmt.Sprintf("%.1f", x)` as a string. -/
def fmtF1 (q : ℚ) : String :=
  ⟨fmtF1Chars q⟩

/-- Lexicographic order on character lists by code point. -/
def charListLt : List Char → List Char → Bool
  | [], [] => false
  | [], _ :: _ => true
  | _ :: _, [] => false
  | a :: as, b :: bs =>
    if a.val < b.val then true
    else if b.val < a.val then false
    else charListLt as bs

/-- Go's `<` on strings: byte-wise lexicographic comparison.  On valid
UTF-8, byte order coincides with code-point order, so comparing the
decoded characters is equivalent. -/
def goStringLt (a b : String) : Bool :=
  charListLt a.data b.data

/-- The six tab-separated cells of one CSV node row (`part_000` lines
284-291): `cluster_num`, `cluster_uuid`, `cluster_size`, `hostname`,
`cpu_cores`, `RAM`.  The `cpu_cores` cell is the literal `N/A` when
`node.Version < "6.5"` (Go byte-wise string comparison; identical to
Lean's character-wise comparison on ASCII version strings), otherwise
`%.1f` of the cores value. -/
def csvNodeRowCells (cnum : Nat) (c : BriefCluster) (node : BriefNode) : List String :=
  if goStringLt node.version "6.5" then
    [natRepr cnum, c.uuid, natRepr c.size, node.name, "N/A", fmtF1 node.ram]
  else
    [natRepr cnum, c.uuid, natRepr c.size, node.name, fmtF1 node.cores, fmtF1 node.ram]

/-- One CSV node row: cells joined by tabs plus a newline. -/
def csvNodeRow (cnum : Nat) (c : BriefCluster) (node : BriefNode) : String :=
  String.intercalate "\t" (csvNodeRowCells cnum c node) ++ "\n"

/-- CSV rendering (`part_000` lines 276-295): header row, then one row
per node of every brief record; the `icluster.(*BriefCluster)` type
assertion skips full and error records. -/
def renderCSV (s : SummaryInfo) : String :=
  "cluster_num\tcluster_uuid\tcluster_size\thostname\tcpu_cores\tRAM\n" ++
    String.join ((s.clusters.enum).map (fun p =>
      match p.2 with
      | .brief bc => String.join (bc.nodes.map (fun node => csvNodeRow p.1 bc node))
      | _ => ""))

/-- `json.Marshal` of a `BriefNode` (struct field order, tags from
`part_000` lines 51-56). -/
def BriefNode.toJson (n : BriefNode) : Json :=
  .obj [("cpu_cores_available", .num n.cores), ("mem_total", .num n.ram),
        ("hostname", .str n.name), ("version", .str n.version)]

/-- `json.Marshal` of a `BriefCluster`. -/
def BriefCluster.toJson (c : BriefCluster) : Json :=
  .obj [("nodes", .arr (c.nodes.map BriefNode.toJson)),
        ("cluster_size", .num c.size), ("cluster_uuid", .str c.uuid)]

/-- `json.Marshal` of a config `Cluster` (tags from `part_001` lines
111-115): login, plaintext password under key `pass`, node list. -/
def Cluster.toJson (c : Cluster) : Json :=
  .obj [("login", .str c.login), ("pass", .str c.pass),
        ("nodes", .arr (c.nodes.map Json.str))]

/-- `json.Marshal` of a `ClusterError`: the whole configured cluster
entry under `error_with_cluster`, the message under `error_message`. -/
def ClusterError.toJson (e : ClusterError) : Json :=
  .obj [("error_with_cluster", e.theCluster.toJson),
        ("error_message", .str e.errMsg)]

/-- `json.Marshal` of a `NodeStats`. -/
def NodeStats.toJson (s : NodeStats) : Json :=
  .obj [("cmd_get", .num s.cmd_get),
        ("couch_docs_actual_disk_size", .num s.couch_docs_actual_disk_size),
        ("couch_docs_data_size", .num s.couch_docs_data_size),
        ("couch_spatial_data_size", .num s.couch_spatial_data_size),
        ("couch_spatial_disk_size", .num s.couch_spatial_disk_size),
        ("couch_views_actual_disk_size", .num s.couch_views_actual_disk_size),
        ("couch_views_data_size", .num s.couch_views_data_size),
        ("curr_items", .num s.curr_items),
        ("curr_items_tot", .num s.curr_items_tot),
        ("ep_bg_fetched", .num s.ep_bg_fetched),
        ("get_hits", .num s.get_hits),
        ("mem_used", .num s.mem_used),
        ("ops", .num s.ops),
        ("vb_active_num_non_resident", .num s.vb_active_num_non_resident),
        ("vb_replica_curr_items", .num s.vb_replica_curr_items)]

/-- `json.Marshal` of a `SysStats`. -/
def SysStats.toJson (s : SysStats) : Json :=
  .obj [("cpu_utilization_rate", .num s.cpu_utilization_rate),
        ("cpu_cores_available", .num s.cpu_cores_available),
        ("mem_free", .num s.mem_free), ("mem_total", .num s.mem_total),
        ("swap_total", .num s.swap_total), ("swap_used", .num s.swap_used)]

/-- `json.Marshal` of a `NodeInfo`. -/
def NodeInfo.toJson (ni : NodeInfo) : Json :=
  .obj [("clusterMembership", .str ni.clusterMembership),
        ("hostname", .str ni.hostname),
        ("interestingStats", ni.interestingStats.toJson),
        ("mcdMemoryAllocated", .num ni.mcdMemoryAllocated),
        ("mcdMemoryReserved", .num ni.mcdMemoryReserved),
        ("memoryFree", .num ni.memoryFree),
        ("memoryTotal", .num ni.memoryTotal),
        ("os", .str ni.os),
        ("services", .arr (ni.services.map Json.str)),
        ("status", .str ni.status),
        ("systemStats", ni.systemStats.toJson),
        ("uptime", .str ni.uptime),
        ("version", .str ni.version)]

/-- `json.Marshal` of a `HDDStorageInfo` (`QuotaTotal` key falls back to
the Go field name because its tag is empty). -/
def HDDStorageInfo.toJson (s : HDDStorageInfo) : Json :=
  .obj [("free", .num s.free), ("QuotaTotal", .num s.quotaTotal),
        ("total", .num s.total), ("used", .num s.used),
        ("usedByData", .num s.usedByData)]

/-- `json.Marshal` of a `RAMStorageInfo` (with the source's misspelt
`quataUsedPerNode` tag). -/
def RAMStorageInfo.toJson (s : RAMStorageInfo) : Json :=
  .obj [("quotaTotal", .num s.quotaTotal),
        ("quotaTotalPerNode", .num s.quotaTotalPerNode),
        ("quotaUsed", .num s.quotaUsed),
        ("quataUsedPerNode", .num s.quotaUsedPerNode),
        ("total", .num s.total), ("used", .num s.used),
        ("usedByData", .num s.usedByData)]

/-- `json.Marshal` of a `ClusterStorageInfo`. -/
def ClusterStorageInfo.toJson (s : ClusterStorageInfo) : Json :=
  .obj [("hdd", s.hdd.toJson), ("ram", s.ram.toJson)]

/-- `json.Marshal` of a version histogram.  Go sorts map keys when
marshalling; the model keeps insertion order — no claim depends on the
key order of this object. -/
def versionsToJson (m : List (String × Nat)) : Json :=
  .obj (m.map (fun kv => (kv.1, Json.num kv.2)))

/-- `json.Marshal` of a `ClusterSummary`. -/
def ClusterSummary.toJson (c : ClusterSummary) : Json :=
  .obj [("implementationVersion", .str c.implementationVersion),
        ("isEnterprise", .bool c.isEnterprise),
        ("uuid", .str c.uuid),
        ("balanced", .bool c.balanced),
        ("clusterName", .str c.clusterName),
        ("ftsMemoryQuota", .num c.ftsMemoryQuota),
        ("indexMemoryQuota", .num c.indexMemoryQuota),
        ("memoryQuota", .num c.memoryQuota),
        ("name", .str c.name),
        ("nodeCount", .num c.nodeCount),
        ("nodeVersions", versionsToJson c.nodeVersions),
        ("nodes", .arr (c.nodes.map NodeInfo.toJson)),
        ("rebalanceStatus", .str c.rebalanceStatus),
        ("storageTotals", c.storageTotals.toJson)]

/-- `json.Marshal` of one slot of the heterogeneous `Clusters` slice. -/
def ClusterRecord.toJson : ClusterRecord → Json
  | .full c => c.toJson
  | .brief c => c.toJson
  | .error e => e.toJson

/-- `json.MarshalIndent` of the whole report, as a JSON value. -/
def SummaryInfo.toJson (s : SummaryInfo) : Json :=
  .obj [("#clusters", .num s.numClusters), ("#nodes", .num s.totalNumNodes),
        ("#nodeVersions", versionsToJson s.nodeVersions),
        ("clusters", .arr (s.clusters.map ClusterRecord.toJson))]

/-- Go errors as seen by `executeRequest`'s type switch (`part_001` lines
270-291): the dynamic type of the value `http.Client.Do` returned.
`urlError` is `*url.Error` (the wrapper `net/http` documents that `Do`
always returns, carrying the operation, the URL and a wrapped cause);
`unknownAuthority` is `x509.UnknownAuthorityError`; the remaining x509
cases and a catch-all carry their rendered message. -/
inductive GoError where
  | urlError (op url : String) (inner : GoError)
  | unknownAuthority (msg : String)
  | certInvalid (msg : String)
  | constraintViolation (msg : String)
  | hostnameError (msg : String)
  | systemRoots (msg : String)
  | unhandledCriticalExtension (msg : String)
  | other (msg : String)
deriving DecidableEq, Repr

/-- `Error()` of a Go error value (`*url.Error` renders as
`op "url": cause`). -/
def GoError.message : GoError → String
  | .urlError op url inner => op ++ " \"" ++ url ++ "\": " ++ inner.message
  | .unknownAuthority m => m
  | .certInvalid m => m
  | .constraintViolation m => m
  | .hostnameError m => m
  | .systemRoots m => m
  | .unhandledCriticalExtension m => m
  | .other m => m

/-- The guidance text of `UnknownAuthorityError.Error()` (`part_001`
lines 50-58): the underlying message followed by remediation advice
naming the `--no-ssl-verify` escape hatch. -/
def unknownAuthorityMessage (inner : String) : String :=
  inner ++ "\n\nIf you are using self-signed certificates you can " ++
    "re-run this command with\nthe --no-ssl-verify flag. Note however that" ++
    " disabling ssl verification\nmeans that cbbackupmgr will be vulnerable" ++
    " to man-in-the-middle attacks.\n\nFor the most secure access to Couchbase" ++
    " make sure that you have X.509\ncertificates set up in your cluster and" ++
    " use the --cacert flag to specify\nyour client certificate."

/-- What `executeRequest` returns when `client.Do` itself failed: the
result of the `switch err.(type)` at `part_001` lines 272-291. -/
inductive ClientFailure where
  | passthrough (e : GoError)
  | unknownAuthorityWrapped (e : GoError)
  | restClientError (method url : String) (e : GoError)
deriving DecidableEq, Repr

/-- The `switch err.(type)` of `executeRequest` (`part_001` lines
272-291), case for case and in source order: a `*url.Error` is unwrapped
and its inner error returned as-is; a bare `x509.UnknownAuthorityError`
is wrapped in `UnknownAuthorityError`; the other x509 error types are
returned unchanged; anything else is wrapped in `RestClientError`. -/
def classifyDoError (method url : String) : GoError → ClientFailure
  | .urlError _ _ inner => .passthrough inner
  | .unknownAuthority m => .unknownAuthorityWrapped (.unknownAuthority m)
  | .certInvalid m => .passthrough (.certInvalid m)
  | .constraintViolation m => .passthrough (.constraintViolation m)
  | .hostnameError m => .passthrough (.hostnameError m)
  | .systemRoots m => .passthrough (.systemRoots m)
  | .unhandledCriticalExtension m => .passthrough (.unhandledCriticalExtension m)
  | .other m => .restClientError method url (.other m)

/-- `Error()` of the value `executeRequest` hands back for a transport
failure (`RestClientError.Error` at `part_001` lines 26-28,
`UnknownAuthorityError.Error` at lines 50-58). -/
def ClientFailure.message : ClientFailure → String
  | .passthrough e => e.message
  | .unknownAuthorityWrapped e => unknownAuthorityMessage e.message
  | .restClientError method url e =>
    "Rest client error (" ++ method ++ " " ++ url ++ "): " ++ e.message

/-- Substring test on character lists (needle found anywhere in the
haystack). -/
def listContains (hay needle : List Char) : Bool :=
  match hay with
  | [] => needle.isEmpty
  | _ :: t => needle.isPrefixOf hay || listContains t needle

/-- Substring test on strings. -/
def strContains (hay needle : String) : Bool :=
  listContains hay.data needle.data

/-- `part_001`, type `HttpError` (fields `code`, `method`, `resource`,
`body`). -/
structure HttpError where
  code : Nat
  method : String
  resource : String
  body : String
deriving DecidableEq, Repr

/-- `HttpError.Error()` (`part_001` lines 67-84), including the source's
misspelt `Recieved` in the default case. -/
def HttpError.errorMessage (e : HttpError) : String :=
  if e.code = 400 then
    "Bad request executing " ++ e.method ++ " " ++ e.resource ++ " due to " ++ e.body
  else if e.code = 401 then
    "Authentication error executing \"" ++ e.method ++ " " ++ e.resource ++
      "\" check username and password"
  else if e.code = 403 then
    e.body
  else if e.code = 500 then
    "Internal server error while executing \"" ++ e.method ++ " " ++ e.resource ++
      "\" check the server logs for more details"
  else
    "Recieved error " ++ natRepr e.code ++ " while executing \"" ++ e.method ++
      " " ++ e.resource ++ "\""

/-- The overlay struct `executeRequest` decodes a 403 body into
(`part_001` lines 302-305). -/
structure Overlay where
  message : String
  permissions : List String
deriving DecidableEq, Repr

/-- An HTTP response as `executeRequest` observes it: the status code,
the raw body (`none` models an `ioutil.ReadAll` failure), and the result
of JSON-decoding the body as the 403 `overlay` (the decoder is
`encoding/json`, external). -/
structure HttpResponse where
  statusCode : Nat
  bodyText : Option String
  bodyOverlay : Except String Overlay
deriving Repr

/-- Result of `executeRequest` once a response arrived. -/
inductive RestResult where
  | ok (resp : HttpResponse)
  | httpErr (e : HttpError)
deriving Repr

/-- The status-code classification of `executeRequest` (`part_001` lines
293-321): 400 returns an `HttpError` carrying the body text (or
`<no body>` when the body could not be read); 403 returns an `HttpError`
whose body is `Message: perm1, perm2, ...` from the decoded overlay, or
empty when decoding failed; any other status outside {200, 202, 201}
returns an `HttpError` with that code and an empty body; otherwise the
response itself is returned for the caller to decode. -/
def executeRequestStatus (method url : String) (resp : HttpResponse) : RestResult :=
  if resp.statusCode = 400 then
    .httpErr ⟨400, method, url, resp.bodyText.getD "<no body>"⟩
  else if resp.statusCode = 403 then
    match resp.bodyOverlay with
    | .error _ => .httpErr ⟨403, method, url, ""⟩
    | .ok data =>
      .httpErr ⟨403, method, url,
        data.message ++ ": " ++ String.intercalate ", " data.permissions⟩
  else if resp.statusCode ≠ 200 ∧ resp.statusCode ≠ 202 ∧ resp.statusCode ≠ 201 then
    .httpErr ⟨resp.statusCode, method, url, ""⟩
  else
    .ok resp

/-- The command-line switches the core consumes (`part_000` lines 79-83;
flag parsing itself is Go's `flag` package, external). -/
structure Flags where
  help : Bool
  full : Bool
  csv : Bool
  configFile : String
deriving DecidableEq, Repr

/-- Rendered report body: tab-separated text or the JSON value handed to
the indenting serializer. -/
inductive ReportBody where
  | csv (text : String)
  | json (j : Json)
deriving Repr

/-- How a run of `main` ends, before the external file write. -/
inductive MainOutcome where
  | helpShown
  | configError (msg : String)
  | report (s : SummaryInfo) (body : ReportBody)
deriving Repr

/-- Control flow of `main` (`part_000` lines 85-303) up to the external
file write, with the trace of network requests issued: the help check
(`--help` or empty config path), then the `FULL && CSV` conflict check
(lines 108-112, before any file or network access; the second
empty-config check at lines 115-118 is unreachable because the help
branch already caught that case), then config loading/parsing (external,
summarized as an `Except`), then polling and aggregation, then rendering. -/
def runMain (flags : Flags) (env : Env) (config : Except String (List Cluster)) :
    MainOutcome × List Call :=
  if flags.help || flags.configFile.length == 0 then
    (.helpShown, [])
  else if flags.full && flags.csv then
    (.configError "CSV format is not available for full reports.", [])
  else
    match config with
    | .error e => (.configError e, [])
    | .ok clusters =>
      let s := buildSummary flags.full env clusters
      let body := if flags.csv then ReportBody.csv (renderCSV s)
                  else ReportBody.json s.toJson
      (.report s body, clusters.flatMap (fun c => (pollNodes env c.login c.pass c.nodes none).2))

/-- Node count a record reports: `nodeCount` of a full record,
`cluster_size` of a brief record, nothing for an error record. -/
def recordNodeCount : ClusterRecord → Nat
  | .full c => c.nodeCount
  | .brief c => c.size
  | .error _ => 0

/-- Whether a record is the error variant. -/
def isErrorRecord : ClusterRecord → Bool
  | .error _ => true
  | _ => false

/-- Whether a record is one of the two success variants. -/
def isSuccessRecord : ClusterRecord → Bool
  | .full _ => true
  | .brief _ => true
  | .error _ => false


/-! ### Concrete instances used to witness the theorems -/

/-- All-zero interesting stats. -/
def statsZero : NodeStats := ⟨0, 0, 0, 0, 0, 0, 0, 0, 0, 0, 0, 0, 0, 0, 0⟩

/-- System stats of a pre-6.5 node: `cpu_cores_available` decodes to the
zero value because old servers omit the field. -/
def sysStatsOld : SysStats := ⟨12, 0, 1000, 2000, 0, 0⟩

/-- System stats of a 6.5+ node reporting 8 cores. -/
def sysStatsNew : SysStats := ⟨12, 8, 1000, 2000, 0, 0⟩

/-- All-zero storage totals. -/
def storageZero : ClusterStorageInfo := ⟨⟨0, 0, 0, 0, 0⟩, ⟨0, 0, 0, 0, 0, 0, 0⟩⟩

/-- Example `/pools` payload. -/
def poolsEx : Pools := ⟨"7.1.0-enterprise", true, "uuid-1234"⟩

/-- Example `/pools/default` payload with no nodes. -/
def pdEx : PoolsDefault := ⟨true, "c1", 0, 0, 0, "default", [], "none", storageZero⟩

/-- A pre-6.5 node as decoded from `/pools/default`: version `6.1.0`,
`cpu_cores_available` zero (absent on the wire), 0 bytes of RAM to keep
the arithmetic small. -/
def niOld : NodeInfo :=
  { clusterMembership := "active", hostname := "old1.example.com"
    interestingStats := statsZero, mcdMemoryAllocated := 0
    mcdMemoryReserved := 0, memoryFree := 0, memoryTotal := 0
    os := "x86_64-unknown-linux-gnu", services := ["kv"], status := "healthy"
    systemStats := sysStatsOld, uptime := "1000", version := "6.1.0" }

/-- A 6.6.0 node with 16 GiB of RAM (`memoryTotal = 17179869184`). -/
def ni16 : NodeInfo :=
  { clusterMembership := "active", hostname := "new1.example.com"
    interestingStats := statsZero, mcdMemoryAllocated := 0
    mcdMemoryReserved := 0, memoryFree := 0, memoryTotal := 17179869184
    os := "x86_64-unknown-linux-gnu", services := ["kv"], status := "healthy"
    systemStats := sysStatsNew, uptime := "1000", version := "6.6.0" }

/-- Example `/pools` payload of an old cluster. -/
def poolsOld : Pools := ⟨"6.1.0-enterprise", true, "uuid-old"⟩

/-- Example `/pools/default` payload containing the old node. -/
def pdOld : PoolsDefault := ⟨true, "cold", 0, 0, 0, "default", [niOld], "none", storageZero⟩

/-- Environment where every request fails at transport level. -/
def envFail : Env :=
  { poolsData := fun _ => .error "connection refused"
    poolsDefaultData := fun _ => .error "connection refused" }

/-- Environment where only the node address `nodeB` answers both calls. -/
def envAB : Env :=
  { poolsData := fun client =>
      if client.host = "nodeB" then .ok poolsEx else .error "connection refused"
    poolsDefaultData := fun client =>
      if client.host = "nodeB" then .ok pdEx else .error "connection refused" }

/-- Environment where every node answers with the old cluster's data. -/
def envOld : Env :=
  { poolsData := fun _ => .ok poolsOld
    poolsDefaultData := fun _ => .ok pdOld }

/-- A configured cluster none of whose nodes will answer. -/
def cFailEx : Cluster := ⟨"Administrator", "password1", ["n1"]⟩

/-- The configured cluster of the old environment. -/
def clusterOld : Cluster := ⟨"Administrator", "pw", ["old1"]⟩

/-- An empty brief cluster, used where a row context is needed. -/
def bcEx0 : BriefCluster := ⟨[], 0, ""⟩

/-- The message of Go's `x509.UnknownAuthorityError` (rendered by the
standard library when certificate verification fails on an unknown CA). -/
def x509UnknownAuthorityText : String := "x509: certificate signed by unknown authority"

/-- A 400 response carrying a body. -/
def resp400 : HttpResponse := ⟨400, some "oops", .error "EOF"⟩

/-- A 200 response. -/
def respOK : HttpResponse := ⟨200, some "payload", .error "EOF"⟩

/-- Flags selecting both the full report and CSV output. -/
def flagsFullCsv : Flags := ⟨false, true, true, "config.json"⟩

/-- Index of cluster polls: node count a successful poll contributes. -/
def pollNodeCount (env : Env) (c : Cluster) : Nat :=
  match pollCluster env c with
  | .success _ pd => pd.nodes.length
  | .failure _ => 0

/-! ### Helper lemmas -/

theorem pollNodes_nil (env : Env) (login pass : String) (c0 : Option String) :
    pollNodes env login pass [] c0 = (.failure c0, []) := rfl

theorem pollNodes_cons_poolsErr (env : Env) (login pass node : String)
    (rest : List String) (c0 : Option String) (e : String)
    (hp : env.poolsData (CreateRestClient node login pass) = .error e) :
    pollNodes env login pass (node :: rest) c0 =
      ((pollNodes env login pass rest (some e)).1,
        .pools node :: (pollNodes env login pass rest (some e)).2) := by
  simp [pollNodes, hp]

theorem pollNodes_cons_defaultErr (env : Env) (login pass node : String)
    (rest : List String) (c0 : Option String) (p : Pools) (e : String)
    (hp : env.poolsData (CreateRestClient node login pass) = .ok p)
    (hpd : env.poolsDefaultData (CreateRestClient node login pass) = .error e) :
    pollNodes env login pass (node :: rest) c0 =
      ((pollNodes env login pass rest (some e)).1,
        .pools node :: .poolsDefault node :: (pollNodes env login pass rest (some e)).2) := by
  simp [pollNodes, hp, hpd]

theorem pollNodes_cons_ok (env : Env) (login pass node : String)
    (rest : List String) (c0 : Option String) (p : Pools) (pd : PoolsDefault)
    (hp : env.poolsData (CreateRestClient node login pass) = .ok p)
    (hpd : env.poolsDefaultData (CreateRestClient node login pass) = .ok pd) :
    pollNodes env login pass (node :: rest) c0 =
      (.success p pd, [.pools node, .poolsDefault node]) := by
  simp [pollNodes, hp, hpd]

theorem nodeSucceeds_false_of_poolsErr (env : Env) (login pass node : String) (e : String)
    (hp : env.poolsData (CreateRestClient node login pass) = .error e) :
    nodeSucceeds env login pass node = false := by
  simp [nodeSucceeds, hp, Except.isOk, Except.toBool]

theorem nodeSucceeds_false_of_defaultErr (env : Env) (login pass node : String)
    (p : Pools) (e : String)
    (hp : env.poolsData (CreateRestClient node login pass) = .ok p)
    (hpd : env.poolsDefaultData (CreateRestClient node login pass) = .error e) :
    nodeSucceeds env login pass node = false := by
  simp [nodeSucceeds, hp, hpd, Except.isOk, Except.toBool]

theorem nodeSucceeds_true_iff (env : Env) (login pass node : String) :
    nodeSucceeds env login pass node = true ↔
      (∃ p, env.poolsData (CreateRestClient node login pass) = .ok p)
      ∧ ∃ pd, env.poolsDefaultData (CreateRestClient node login pass) = .ok pd := by
  cases hp : env.poolsData (CreateRestClient node login pass) <;>
    cases hpd : env.poolsDefaultData (CreateRestClient node login pass) <;>
      simp [nodeSucceeds, hp, hpd, Except.isOk, Except.toBool]

theorem pollNodes_success_iff (env : Env) (login pass : String) (nodes : List String) :
    ∀ c0, (∃ p pd, (pollNodes env login pass nodes c0).1 = .success p pd) ↔
      ∃ n ∈ nodes, nodeSucceeds env login pass n = true := by
  induction nodes with
  | nil => intro c0; simp [pollNodes_nil]
  | cons node rest ih =>
    intro c0
    cases hp : env.poolsData (CreateRestClient node login pass) with
    | error e =>
      rw [pollNodes_cons_poolsErr env login pass node rest c0 e hp]
      simp only [List.mem_cons]
      constructor
      · intro h
        obtain ⟨n, hn, hs⟩ := (ih (some e)).mp h
        exact ⟨n, Or.inr hn, hs⟩
      · rintro ⟨n, hn | hn, hs⟩
        · rw [hn] at hs
          rw [nodeSucceeds_false_of_poolsErr env login pass node e hp] at hs
          exact absurd hs (by simp)
        · exact (ih (some e)).mpr ⟨n, hn, hs⟩
    | ok p =>
      cases hpd : env.poolsDefaultData (CreateRestClient node login pass) with
      | error e =>
        rw [pollNodes_cons_defaultErr env login pass node rest c0 p e hp hpd]
        simp only [List.mem_cons]
        constructor
        · intro h
          obtain ⟨n, hn, hs⟩ := (ih (some e)).mp h
          exact ⟨n, Or.inr hn, hs⟩
        · rintro ⟨n, hn | hn, hs⟩
          · rw [hn] at hs
            rw [nodeSucceeds_false_of_defaultErr env login pass node p e hp hpd] at hs
            exact absurd hs (by simp)
          · exact (ih (some e)).mpr ⟨n, hn, hs⟩
      | ok pd =>
        rw [pollNodes_cons_ok env login pass node rest c0 p pd hp hpd]
        constructor
        · intro _
          exact ⟨node, List.mem_cons_self node rest,
            (nodeSucceeds_true_iff env login pass node).mpr ⟨⟨p, hp⟩, ⟨pd, hpd⟩⟩⟩
        · intro _
          exact ⟨p, pd, rfl⟩

theorem mapTotal_nil : mapTotal [] = 0 := rfl

theorem mapTotal_bump (m : List (String × Nat)) (k : String) :
    mapTotal (bump m k) = mapTotal m + 1 := by
  induction m with
  | nil => rfl
  | cons kv rest ih =>
    obtain ⟨k', v⟩ := kv
    by_cases h : k' = k
    · simp [bump, h, mapTotal]
      omega
    · simp [bump, h, mapTotal] at ih ⊢
      omega

theorem mapTotal_bumpAll (nodes : List NodeInfo) :
    ∀ m, mapTotal (bumpAll m nodes) = mapTotal m + nodes.length := by
  induction nodes with
  | nil => intro m; simp [bumpAll]
  | cons ni rest ih =>
    intro m
    have h1 : bumpAll m (ni :: rest) = bumpAll (bump m ni.version) rest := rfl
    rw [h1, ih, mapTotal_bump]
    simp
    omega

theorem digitChar_isDigit (d : Nat) (h : d < 10) : (Nat.digitChar d).isDigit = true := by
  interval_cases d <;> decide

theorem natDigitCharsAux_digits (fuel : Nat) :
    ∀ n c, c ∈ natDigitCharsAux fuel n → c.isDigit = true := by
  induction fuel with
  | zero => intro n c hc; simp [natDigitCharsAux] at hc
  | succ fuel ih =>
    intro n c hc
    by_cases hn : n = 0
    · simp [natDigitCharsAux, hn] at hc
    · simp only [natDigitCharsAux, if_neg hn, List.mem_append, List.mem_singleton] at hc
      rcases hc with hc | hc
      · exact ih (n / 10) c hc
      · rw [hc]
        exact digitChar_isDigit (n % 10) (Nat.mod_lt n (by omega))

theorem natDigitChars_digits (n : Nat) (c : Char) (hc : c ∈ natDigitChars n) :
    c.isDigit = true := by
  by_cases hn : n = 0
  · simp [natDigitChars, hn] at hc
    rw [hc]; decide
  · simp only [natDigitChars, if_neg hn] at hc
    exact natDigitCharsAux_digits n n c hc

theorem natDigitChars_ne_nil (n : Nat) : natDigitChars n ≠ [] := by
  by_cases hn : n = 0
  · simp [natDigitChars, hn]
  · simp only [natDigitChars, if_neg hn]
    obtain ⟨fuel, hfuel⟩ : ∃ fuel, n = fuel + 1 := ⟨n - 1, by omega⟩
    rw [hfuel]
    simp [natDigitCharsAux, hn, hfuel]

theorem fmtF1Chars_shape (q : ℚ) :
    ∃ pre d, fmtF1Chars q = pre ++ ['.', d] ∧ d.isDigit = true ∧ ∀ ch ∈ pre, ch ≠ '.' := by
  refine ⟨(if roundHalfEven (q * 10) < 0 then ['-'] else []) ++
    natDigitChars ((roundHalfEven (q * 10)).natAbs / 10),
    Nat.digitChar ((roundHalfEven (q * 10)).natAbs % 10), ?_, ?_, ?_⟩
  · simp [fmtF1Chars, List.append_assoc]
  · exact digitChar_isDigit _ (Nat.mod_lt _ (by omega))
  · intro ch hch
    rcases List.mem_append.mp hch with hch | hch
    · by_cases hneg : roundHalfEven (q * 10) < 0
      · simp [if_pos hneg] at hch
        rw [hch]; decide
      · simp [if_neg hneg] at hch
    · have hd := natDigitChars_digits _ ch hch
      intro hdot
      rw [hdot] at hd
      exact absurd hd (by decide)

theorem fmtF1Chars_numeric (q : ℚ) :
    (fmtF1Chars q).all (fun ch => ch.isDigit || ch = '.' || ch = '-') = true := by
  rw [List.all_eq_true]
  intro ch hch
  simp only [fmtF1Chars, List.mem_append, List.mem_cons, List.mem_singleton,
    List.not_mem_nil, or_false] at hch
  rcases hch with ((hsign | hnd) | hdot) | hd
  · by_cases hneg : roundHalfEven (q * 10) < 0
    · rw [if_pos hneg] at hsign
      simp only [List.mem_singleton] at hsign
      rw [hsign]; decide
    · rw [if_neg hneg] at hsign
      simp at hsign
  · have h := natDigitChars_digits _ ch hnd
    simp [h]
  · rw [hdot]; decide
  · rw [hd]
    have h := digitChar_isDigit ((roundHalfEven (q * 10)).natAbs % 10)
      (Nat.mod_lt _ (by omega))
    simp [h]

theorem fmtF1_ne_NA (q : ℚ) : fmtF1 q ≠ "N/A" := by
  intro h
  have hdata : fmtF1Chars q = ['N', '/', 'A'] := congrArg String.data h
  by_cases hneg : roundHalfEven (q * 10) < 0
  · have hfc : fmtF1Chars q = '-' ::
        (natDigitChars ((roundHalfEven (q * 10)).natAbs / 10) ++ ['.'] ++
          [Nat.digitChar ((roundHalfEven (q * 10)).natAbs % 10)]) := by
      simp [fmtF1Chars, if_pos hneg]
    rw [hfc] at hdata
    injection hdata with h1 _
    exact absurd h1 (by decide)
  · have hfc : fmtF1Chars q =
        natDigitChars ((roundHalfEven (q * 10)).natAbs / 10) ++ ['.'] ++
          [Nat.digitChar ((roundHalfEven (q * 10)).natAbs % 10)] := by
      simp [fmtF1Chars, if_neg hneg]
    obtain ⟨c, t, hct⟩ :=
      List.exists_cons_of_ne_nil (natDigitChars_ne_nil ((roundHalfEven (q * 10)).natAbs / 10))
    rw [hfc, hct] at hdata
    simp only [List.cons_append] at hdata
    injection hdata with h1 _
    have hdig := natDigitChars_digits ((roundHalfEven (q * 10)).natAbs / 10) c
      (by rw [hct]; exact List.mem_cons_self c t)
    rw [h1] at hdig
    exact absurd hdig (by decide)

theorem recordNodeCount_recordForCluster (full : Bool) (env : Env) (c : Cluster) :
    recordNodeCount (recordForCluster full env c) = pollNodeCount env c := by
  unfold recordForCluster pollNodeCount
  cases pollCluster env c with
  | success p pd =>
    cases full <;> simp [recordNodeCount, mkClusterSummary, mkBriefCluster]
  | failure e => rfl

theorem foldl_clusterAgg_total (env : Env) (clusters : List Cluster) :
    ∀ acc : FleetAcc, (clusters.foldl (clusterAgg env) acc).totalNumNodes =
      acc.totalNumNodes + ((clusters.map (pollNodeCount env)).sum) := by
  induction clusters with
  | nil => intro acc; simp
  | cons c rest ih =>
    intro acc
    rw [List.foldl_cons, ih, List.map_cons, List.sum_cons]
    cases h : pollCluster env c <;> simp [clusterAgg, pollNodeCount, h] <;> try omega

theorem foldl_clusterAgg_versions (env : Env) (clusters : List Cluster) :
    ∀ acc : FleetAcc, mapTotal (clusters.foldl (clusterAgg env) acc).nodeVersions =
      mapTotal acc.nodeVersions + ((clusters.map (pollNodeCount env)).sum) := by
  induction clusters with
  | nil => intro acc; simp
  | cons c rest ih =>
    intro acc
    rw [List.foldl_cons, ih, List.map_cons, List.sum_cons]
    cases h : pollCluster env c <;>
      simp [clusterAgg, pollNodeCount, h, mapTotal_bumpAll] <;> try omega

theorem isErrorRecord_recordForCluster_iff (full : Bool) (env : Env) (c : Cluster) :
    isErrorRecord (recordForCluster full env c) = true ↔
      ∀ n ∈ c.nodes, nodeSucceeds env c.login c.pass n = false := by
  unfold recordForCluster
  cases hpoll : pollCluster env c with
  | success p pd =>
    have hsome : ∃ n ∈ c.nodes, nodeSucceeds env c.login c.pass n = true :=
      (pollNodes_success_iff env c.login c.pass c.nodes none).mp ⟨p, pd, hpoll⟩
    obtain ⟨n, hn, hs⟩ := hsome
    constructor
    · intro habs
      exfalso
      cases full <;> simp [isErrorRecord] at habs
    · intro hall
      exfalso
      rw [hall n hn] at hs
      exact absurd hs (by simp)
  | failure e =>
    simp only [isErrorRecord, true_iff]
    intro n hn
    by_contra hs
    rw [Bool.not_eq_false] at hs
    obtain ⟨p, pd, hsucc⟩ :=
      (pollNodes_success_iff env c.login c.pass c.nodes none).mpr ⟨n, hn, hs⟩
    rw [show (pollNodes env c.login c.pass c.nodes none).1 = pollCluster env c from rfl,
      hpoll] at hsucc
    exact absurd hsucc (by simp)

/-! ### Claims -/

/-- C1: for every configured cluster list, the report's `clusters`
sequence has exactly one record per configured cluster, at that cluster's
configuration index, and the record is the error variant exactly when no
node of the cluster yielded both required payloads; a single slot holds
one tagged record, so a cluster never contributes both a successful and
an error record. -/
theorem report_record_per_cluster (full : Bool) (env : Env) (clusters : List Cluster) :
    (buildSummary full env clusters).clusters.length = clusters.length
    ∧ (∀ i : Nat, (buildSummary full env clusters).clusters[i]? =
        (clusters[i]?).map (recordForCluster full env))
    ∧ (∀ c : Cluster, isErrorRecord (recordForCluster full env c) = true ↔
        ∀ n ∈ c.nodes, nodeSucceeds env c.login c.pass n = false)
    ∧ (∀ c : Cluster, ¬(isErrorRecord (recordForCluster full env c) = true
        ∧ isSuccessRecord (recordForCluster full env c) = true)) := by
  refine ⟨by simp [buildSummary], ?_, ?_, ?_⟩
  · intro i
    simp [buildSummary]
  · intro c
    exact isErrorRecord_recordForCluster_iff full env c
  · intro c
    rintro ⟨he, hs⟩
    cases hr : recordForCluster full env c <;>
      rw [hr] at he hs <;> simp [isErrorRecord, isSuccessRecord] at he hs

/-- Witness for C1 at concrete inputs: with an unreachable cluster the
slot holds exactly the per-cluster record and it is the error variant. -/
theorem report_record_per_cluster_witness :
    (buildSummary false envFail [cFailEx]).clusters[0]? =
      some (recordForCluster false envFail cFailEx)
    ∧ isErrorRecord (recordForCluster false envFail cFailEx) = true := by
  constructor
  · exact (report_record_per_cluster false envFail [cFailEx]).2.1 0
  · exact ((report_record_per_cluster false envFail [cFailEx]).2.2.1 cFailEx).mpr
      (by decide)

/-- C2: `totalNumNodes` equals the sum of the node counts reported by the
full and brief records (error records counting zero), equals the total of
the fleet-wide version histogram; `numClusters` counts every configured
cluster, errored ones included; records of the error variant report a
zero node count. -/
theorem fleet_aggregate_tallies (full : Bool) (env : Env) (clusters : List Cluster) :
    (buildSummary full env clusters).totalNumNodes =
      (((buildSummary full env clusters).clusters).map recordNodeCount).sum
    ∧ mapTotal (buildSummary full env clusters).nodeVersions =
        (buildSummary full env clusters).totalNumNodes
    ∧ (buildSummary full env clusters).numClusters = clusters.length
    ∧ ∀ r ∈ (buildSummary full env clusters).clusters,
        isErrorRecord r = true → recordNodeCount r = 0 := by
  refine ⟨?_, ?_, rfl, ?_⟩
  · have hmap : List.map (recordNodeCount ∘ recordForCluster full env) clusters =
        List.map (pollNodeCount env) clusters :=
      List.map_congr_left fun c _ => recordNodeCount_recordForCluster full env c
    show (clusters.foldl (clusterAgg env) ⟨0, []⟩).totalNumNodes =
      ((clusters.map (recordForCluster full env)).map recordNodeCount).sum
    rw [foldl_clusterAgg_total, List.map_map, hmap]
    simp
  · show mapTotal (clusters.foldl (clusterAgg env) ⟨0, []⟩).nodeVersions =
      (clusters.foldl (clusterAgg env) ⟨0, []⟩).totalNumNodes
    rw [foldl_clusterAgg_versions, foldl_clusterAgg_total]
    rfl
  · intro r hr herr
    cases r with
    | full c => simp [isErrorRecord] at herr
    | brief c => simp [isErrorRecord] at herr
    | error e => rfl

/-- Witness for C2 at concrete inputs: the error record of an unreachable
cluster contributes zero to the node tally. -/
theorem fleet_aggregate_tallies_witness :
    recordNodeCount (ClusterRecord.error ⟨cFailEx, "connection refused"⟩) = 0
    ∧ mapTotal (buildSummary true envFail [cFailEx]).nodeVersions =
        (buildSummary true envFail [cFailEx]).totalNumNodes := by
  constructor
  · exact (fleet_aggregate_tallies true envFail [cFailEx]).2.2.2
      (ClusterRecord.error ⟨cFailEx, "connection refused"⟩) (by decide) (by decide)
  · exact (fleet_aggregate_tallies true envFail [cFailEx]).2.1

/-- C3: for every cluster the poller tries the node addresses in listed
order; a node failing either call contributes its last error and the loop
advances; at the first node where both calls succeed it stops, issuing no
request to any later node (the trace ends with that node's two calls);
when every node fails the cluster yields the error of the last node, with
the whole node list contacted in order; an empty node list yields the
stored `none`, which the record builder renders as `Unknown Error`. -/
theorem cluster_poller_failover (env : Env) (login pass : String) :
    (∀ (pre : List String) (n : String) (post : List String) (c0 : Option String)
        (p : Pools) (pd : PoolsDefault),
        (∀ m ∈ pre, nodeSucceeds env login pass m = false) →
        env.poolsData (CreateRestClient n login pass) = .ok p →
        env.poolsDefaultData (CreateRestClient n login pass) = .ok pd →
        pollNodes env login pass (pre ++ n :: post) c0 =
          (.success p pd,
            pre.flatMap (callsFor env login pass) ++ [.pools n, .poolsDefault n]))
    ∧ (∀ (nodes : List String) (c0 : Option String) (hne : nodes ≠ []),
        (∀ m ∈ nodes, nodeSucceeds env login pass m = false) →
        pollNodes env login pass nodes c0 =
          (.failure (nodeError env login pass (nodes.getLast hne)),
            nodes.flatMap (callsFor env login pass)))
    ∧ (∀ c0 : Option String, pollNodes env login pass [] c0 = (.failure c0, []))
    ∧ (∀ (full : Bool) (c : Cluster), c.nodes = [] →
        recordForCluster full env c = .error ⟨c, "Unknown Error"⟩) := by
  refine ⟨?_, ?_, fun c0 => rfl, ?_⟩
  · intro pre
    induction pre with
    | nil =>
      intro n post c0 p pd _ hp hpd
      rw [List.nil_append, pollNodes_cons_ok env login pass n post c0 p pd hp hpd]
      simp
    | cons m pre' ih =>
      intro n post c0 p pd hall hp hpd
      have hm : nodeSucceeds env login pass m = false := hall m (List.mem_cons_self m pre')
      have hall' : ∀ x ∈ pre', nodeSucceeds env login pass x = false :=
        fun x hx => hall x (List.mem_cons_of_mem m hx)
      rw [List.cons_append]
      cases hp' : env.poolsData (CreateRestClient m login pass) with
      | error e =>
        rw [pollNodes_cons_poolsErr env login pass m (pre' ++ n :: post) c0 e hp',
          ih n post (some e) p pd hall' hp hpd]
        simp [callsFor, hp']
      | ok pm =>
        cases hpd' : env.poolsDefaultData (CreateRestClient m login pass) with
        | error e =>
          rw [pollNodes_cons_defaultErr env login pass m (pre' ++ n :: post) c0 pm e hp' hpd',
            ih n post (some e) p pd hall' hp hpd]
          simp [callsFor, hp']
        | ok pdm =>
          exfalso
          have := (nodeSucceeds_true_iff env login pass m).mpr ⟨⟨pm, hp'⟩, ⟨pdm, hpd'⟩⟩
          rw [hm] at this
          exact absurd this (by simp)
  · intro nodes
    induction nodes with
    | nil => intro c0 hne; exact absurd rfl hne
    | cons m rest ih =>
      intro c0 hne hall
      have hm : nodeSucceeds env login pass m = false := hall m (List.mem_cons_self m rest)
      have hall' : ∀ x ∈ rest, nodeSucceeds env login pass x = false :=
        fun x hx => hall x (List.mem_cons_of_mem m hx)
      cases hp' : env.poolsData (CreateRestClient m login pass) with
      | error e =>
        rw [pollNodes_cons_poolsErr env login pass m rest c0 e hp']
        by_cases hres : rest = []
        · subst hres
          rw [pollNodes_nil]
          simp [callsFor, hp', nodeError, List.getLast_singleton]
        · rw [ih (some e) hres hall', List.getLast_cons hres]
          simp [callsFor, hp', List.flatMap_cons]
      | ok pm =>
        cases hpd' : env.poolsDefaultData (CreateRestClient m login pass) with
        | error e =>
          rw [pollNodes_cons_defaultErr env login pass m rest c0 pm e hp' hpd']
          by_cases hres : rest = []
          · subst hres
            rw [pollNodes_nil]
            simp [callsFor, hp', hpd', nodeError, List.getLast_singleton]
          · rw [ih (some e) hres hall', List.getLast_cons hres]
            simp [callsFor, hp', hpd', List.flatMap_cons]
        | ok pdm =>
          exfalso
          have := (nodeSucceeds_true_iff env login pass m).mpr ⟨⟨pm, hp'⟩, ⟨pdm, hpd'⟩⟩
          rw [hm] at this
          exact absurd this (by simp)
  · intro full c hc
    unfold recordForCluster pollCluster
    rw [hc, pollNodes_nil]
    rfl

/-- Witness for C3: with node A failing and node B succeeding, the poller
contacts A (one call), then B (both calls), and never contacts node C;
and an empty node list yields the generic `Unknown Error` record. -/
theorem cluster_poller_failover_witness :
    pollNodes envAB "u" "p" (["nodeA"] ++ "nodeB" :: ["nodeC"]) none =
      (.success poolsEx pdEx,
        [.pools "nodeA", .pools "nodeB", .poolsDefault "nodeB"])
    ∧ recordForCluster false envAB ⟨"u", "p", []⟩ =
        .error ⟨⟨"u", "p", []⟩, "Unknown Error"⟩ := by
  constructor
  · have h := (cluster_poller_failover envAB "u" "p").1 ["nodeA"] "nodeB" ["nodeC"] none
      poolsEx pdEx (by decide) rfl rfl
    exact h
  · exact (cluster_poller_failover envAB "u" "p").2.2.2 false ⟨"u", "p", []⟩ rfl

/-- C6: selecting both the full report and CSV output is rejected with a
reported configuration error before the configuration is even read, and
the trace of network requests is empty — no cluster is contacted. -/
theorem full_csv_rejected_before_network (flags : Flags) (env : Env)
    (config : Except String (List Cluster))
    (hfull : flags.full = true) (hcsv : flags.csv = true)
    (hhelp : flags.help = false) (hconfig : flags.configFile.length ≠ 0) :
    runMain flags env config =
      (.configError "CSV format is not available for full reports.", []) := by
  unfold runMain
  rw [hfull, hcsv, hhelp]
  have h1 : (false || flags.configFile.length == 0) = false := by
    simp [Nat.beq_eq_true_eq, hconfig]
  rw [h1]
  simp

/-- Witness for C6 at concrete flags. -/
theorem full_csv_rejected_before_network_witness :
    runMain flagsFullCsv envFail (.ok [cFailEx]) =
      (.configError "CSV format is not available for full reports.", []) :=
  full_csv_rejected_before_network flagsFullCsv envFail (.ok [cFailEx])
    rfl rfl rfl (by decide)

/-- C4: in tabular mode the `cpu_cores` cell (index 4 of the row) is the
literal token `N/A` exactly when the node's version string is
lexicographically less than `"6.5"`, and otherwise it is `%.1f` of the
cores value — a token of digits, dot and sign, never equal to `N/A`. -/
theorem csv_cores_na_gate (cnum : Nat) (c : BriefCluster) (node : BriefNode) :
    ((csvNodeRowCells cnum c node)[4]? = some "N/A" ↔
      goStringLt node.version "6.5" = true)
    ∧ (goStringLt node.version "6.5" = false →
        (csvNodeRowCells cnum c node)[4]? = some (fmtF1 node.cores)
        ∧ (fmtF1Chars node.cores).all (fun ch => ch.isDigit || ch = '.' || ch = '-') = true
        ∧ fmtF1 node.cores ≠ "N/A") := by
  cases hv : goStringLt node.version "6.5" with
  | false =>
    have hcells : csvNodeRowCells cnum c node =
        [natRepr cnum, c.uuid, natRepr c.size, node.name, fmtF1 node.cores,
          fmtF1 node.ram] := by
      simp [csvNodeRowCells, hv]
    constructor
    · rw [hcells]
      constructor
      · intro h
        exfalso
        have h2 : some (fmtF1 node.cores) = some "N/A" := h
        exact absurd (Option.some.inj h2) (fmtF1_ne_NA node.cores)
      · intro h
        exact absurd h (by simp)
    · intro _
      refine ⟨?_, fmtF1Chars_numeric node.cores, fmtF1_ne_NA node.cores⟩
      rw [hcells]
      rfl
  | true =>
    have hcells : csvNodeRowCells cnum c node =
        [natRepr cnum, c.uuid, natRepr c.size, node.name, "N/A", fmtF1 node.ram] := by
      simp [csvNodeRowCells, hv]
    constructor
    · constructor
      · intro _
        rfl
      · intro _
        rw [hcells]
        rfl
    · intro h
      exact absurd h (by simp)

/-- Witness for C4: version `6.1.0` renders `N/A`, version `6.6.0`
renders the numeric `%.1f` token. -/
theorem csv_cores_na_gate_witness :
    (csvNodeRowCells 0 bcEx0 ⟨8, 16, "old1", "6.1.0"⟩)[4]? = some "N/A"
    ∧ (csvNodeRowCells 0 bcEx0 ⟨8, 16, "new1", "6.6.0"⟩)[4]? =
        some (fmtF1 (8 : ℚ))
    ∧ fmtF1 (8 : ℚ) ≠ "N/A" := by
  refine ⟨?_, ?_, ?_⟩
  · exact (csv_cores_na_gate 0 bcEx0 ⟨8, 16, "old1", "6.1.0"⟩).1.mpr (by decide)
  · exact ((csv_cores_na_gate 0 bcEx0 ⟨8, 16, "new1", "6.6.0"⟩).2 (by decide)).1
  · exact ((csv_cores_na_gate 0 bcEx0 ⟨8, 16, "new1", "6.6.0"⟩).2 (by decide)).2.2

/-- C7: the RAM value of every brief node is `memoryTotal` divided by
1024 three times; `memoryTotal = 17179869184` gives exactly 16; the RAM
cell of the tabular row (index 5) is `%.1f` of that value, which always
prints exactly one digit after the decimal point. -/
theorem ram_gib_conversion (ni : NodeInfo) (cnum : Nat) (c : BriefCluster) :
    (mkBriefNode ni).ram = ni.memoryTotal / 1024 / 1024 / 1024
    ∧ (ni.memoryTotal = 17179869184 → (mkBriefNode ni).ram = 16)
    ∧ (csvNodeRowCells cnum c (mkBriefNode ni))[5]? = some (fmtF1 ((mkBriefNode ni).ram))
    ∧ ∃ pre d, fmtF1Chars ((mkBriefNode ni).ram) = pre ++ ['.', d]
        ∧ d.isDigit = true ∧ ∀ ch ∈ pre, ch ≠ '.' := by
  refine ⟨rfl, ?_, ?_, fmtF1Chars_shape _⟩
  · intro h
    show ni.memoryTotal / 1024 / 1024 / 1024 = 16
    rw [h]
    norm_num
  · cases hv : goStringLt (mkBriefNode ni).version "6.5" <;>
      simp [csvNodeRowCells, hv]

/-- Witness for C7: the 16 GiB node's RAM is exactly 16 and renders as
the one-decimal token `16.0`. -/
theorem ram_gib_conversion_witness :
    (mkBriefNode ni16).ram = 16 ∧ fmtF1 ((mkBriefNode ni16).ram) = "16.0" := by
  have h := (ram_gib_conversion ni16 0 bcEx0).2.1 rfl
  refine ⟨h, ?_⟩
  rw [h]
  have h160 : roundHalfEven ((16 : ℚ) * 10) = 160 := by norm_num [roundHalfEven]
  simp only [fmtF1, fmtF1Chars, h160]
  decide

/-- C5 (amended): for a node from a server older than `6.5` the cores
value is rendered as the unknown token `N/A` in tabular output, but in
brief JSON output the decoded `cpu_cores_available` value is serialized
as-is — the brief record copies it unchanged, so an old server's zero
value is reported as zero cores there. -/
theorem cores_gate_tabular_only (ni : NodeInfo) (cnum : Nat) (c : BriefCluster)
    (h : goStringLt ni.version "6.5" = true) :
    (mkBriefNode ni).cores = ni.systemStats.cpu_cores_available
    ∧ (csvNodeRowCells cnum c (mkBriefNode ni))[4]? = some "N/A"
    ∧ BriefNode.toJson (mkBriefNode ni) =
        .obj [("cpu_cores_available", .num ni.systemStats.cpu_cores_available),
              ("mem_total", .num (ni.memoryTotal / 1024 / 1024 / 1024)),
              ("hostname", .str ni.hostname), ("version", .str ni.version)] := by
  refine ⟨rfl, ?_, rfl⟩
  have hv : goStringLt (mkBriefNode ni).version "6.5" = true := h
  simp [csvNodeRowCells, hv]

/-- Counterexample to C5 as stated: a node of a version-`6.1.0` cluster
with the absent-on-old-servers cores field decoded as zero is reported in
the brief JSON output with `cpu_cores_available` equal to the number `0`
— reported as zero cores, not as unknown. -/
theorem cores_zero_reported_in_brief_json :
    goStringLt niOld.version "6.5" = true
    ∧ recordForCluster false envOld clusterOld = .brief (mkBriefCluster poolsOld pdOld)
    ∧ BriefNode.toJson (mkBriefNode niOld) =
        .obj [("cpu_cores_available", Json.num 0), ("mem_total", Json.num 0),
              ("hostname", Json.str "old1.example.com"), ("version", Json.str "6.1.0")] := by
  refine ⟨by decide, rfl, ?_⟩
  simp only [BriefNode.toJson, mkBriefNode, niOld, sysStatsOld]
  norm_num

/-- Witness for C5 (amended) at the concrete old node. -/
theorem cores_gate_tabular_only_witness :
    (mkBriefNode niOld).cores = niOld.systemStats.cpu_cores_available
    ∧ (csvNodeRowCells 0 bcEx0 (mkBriefNode niOld))[4]? = some "N/A" := by
  have h := cores_gate_tabular_only niOld 0 bcEx0 (by decide)
  exact ⟨h.1, h.2.1⟩

/-- C10: when every node of a configured cluster fails, the error record
embeds the entire configured cluster entry — login, plaintext password
under the JSON key `pass`, and the node list — alongside the error
message. -/
theorem error_record_embeds_credentials (full : Bool) (env : Env) (c : Cluster)
    (h : ∀ n ∈ c.nodes, nodeSucceeds env c.login c.pass n = false) :
    ∃ msg, recordForCluster full env c = .error ⟨c, msg⟩
      ∧ ClusterRecord.toJson (.error ⟨c, msg⟩) =
          .obj [("error_with_cluster",
                  .obj [("login", .str c.login), ("pass", .str c.pass),
                        ("nodes", .arr (c.nodes.map Json.str))]),
                ("error_message", .str msg)] := by
  cases hpoll : pollCluster env c with
  | success p pd =>
    exfalso
    have herr := (isErrorRecord_recordForCluster_iff full env c).mpr h
    unfold recordForCluster at herr
    rw [hpoll] at herr
    cases full <;> simp [isErrorRecord] at herr
  | failure e =>
    refine ⟨e.getD "Unknown Error", ?_, rfl⟩
    unfold recordForCluster
    rw [hpoll]

/-- Witness for C10 at a concrete unreachable cluster: its password
`password1` is embedded in the serialized error record. -/
theorem error_record_embeds_credentials_witness :
    ∃ msg, recordForCluster true envFail cFailEx = .error ⟨cFailEx, msg⟩
      ∧ ClusterRecord.toJson (.error ⟨cFailEx, msg⟩) =
          .obj [("error_with_cluster",
                  .obj [("login", .str "Administrator"), ("pass", .str "password1"),
                        ("nodes", .arr [.str "n1"])]),
                ("error_message", .str msg)] :=
  error_record_embeds_credentials true envFail cFailEx (by decide)

/-- C8 (code bug): `executeRequest` matches `*url.Error` before
`x509.UnknownAuthorityError` and returns the unwrapped inner error, so
for the wrapped form — the only form `http.Client.Do` is documented to
return — the untrusted-authority failure comes back as the bare x509
error whose message carries no `no-ssl-verify` guidance; the
guidance-attaching branch is reachable only for a bare (never produced)
`x509.UnknownAuthorityError`. -/
theorem untrusted_ca_guidance_unreachable :
    classifyDoError "GET" "https://10.0.0.1:8091/pools"
        (.urlError "Get" "https://10.0.0.1:8091/pools"
          (.unknownAuthority x509UnknownAuthorityText)) =
      .passthrough (.unknownAuthority x509UnknownAuthorityText)
    ∧ ClientFailure.message (.passthrough (.unknownAuthority x509UnknownAuthorityText)) =
        x509UnknownAuthorityText
    ∧ strContains
        (ClientFailure.message (.passthrough (.unknownAuthority x509UnknownAuthorityText)))
        "no-ssl-verify" = false
    ∧ strContains
        (ClientFailure.message (classifyDoError "GET" "https://10.0.0.1:8091/pools"
          (.unknownAuthority x509UnknownAuthorityText)))
        "no-ssl-verify" = true := by
  refine ⟨rfl, rfl, ?_, ?_⟩
  · decide
  · decide

/-- C9: `executeRequest` hands the response back for decoding exactly
when the status is 200, 201 or 202; a 400 produces an `HttpError`
carrying the body text, whose message quotes it; a 401 produces an
`HttpError` whose message says to check username and password; a 403 with
a decodable body produces an `HttpError` carrying the message and
permission list; every other non-success status produces an `HttpError`
with that code and an empty body. -/
theorem http_status_taxonomy (method url : String) (resp : HttpResponse) :
    (executeRequestStatus method url resp = .ok resp ↔
      resp.statusCode = 200 ∨ resp.statusCode = 201 ∨ resp.statusCode = 202)
    ∧ (resp.statusCode = 400 →
        executeRequestStatus method url resp =
          .httpErr ⟨400, method, url, resp.bodyText.getD "<no body>"⟩
        ∧ (HttpError.mk 400 method url (resp.bodyText.getD "<no body>")).errorMessage =
            "Bad request executing " ++ method ++ " " ++ url ++ " due to " ++
              resp.bodyText.getD "<no body>")
    ∧ (resp.statusCode = 401 →
        executeRequestStatus method url resp = .httpErr ⟨401, method, url, ""⟩
        ∧ (HttpError.mk 401 method url "").errorMessage =
            "Authentication error executing \"" ++ method ++ " " ++ url ++
              "\" check username and password")
    ∧ (∀ data : Overlay, resp.statusCode = 403 → resp.bodyOverlay = .ok data →
        executeRequestStatus method url resp =
          .httpErr ⟨403, method, url,
            data.message ++ ": " ++ String.intercalate ", " data.permissions⟩)
    ∧ (resp.statusCode ∉ ([200, 201, 202, 400, 403] : List Nat) →
        executeRequestStatus method url resp = .httpErr ⟨resp.statusCode, method, url, ""⟩) := by
  refine ⟨?_, ?_, ?_, ?_, ?_⟩
  · constructor
    · intro h
      by_cases h400 : resp.statusCode = 400
      · exfalso
        unfold executeRequestStatus at h
        rw [if_pos h400] at h
        exact absurd h (by simp)
      · by_cases h403 : resp.statusCode = 403
        · exfalso
          unfold executeRequestStatus at h
          rw [if_neg h400, if_pos h403] at h
          cases hov : resp.bodyOverlay with
          | error e => rw [hov] at h; exact absurd h (by simp)
          | ok data => rw [hov] at h; exact absurd h (by simp)
        · by_cases hsucc : resp.statusCode = 200 ∨ resp.statusCode = 201 ∨
            resp.statusCode = 202
          · exact hsucc
          · exfalso
            unfold executeRequestStatus at h
            rw [if_neg h400, if_neg h403,
              if_pos (show resp.statusCode ≠ 200 ∧ resp.statusCode ≠ 202 ∧
                resp.statusCode ≠ 201 by omega)] at h
            exact absurd h (by simp)
    · intro h
      have h400 : resp.statusCode ≠ 400 := by omega
      have h403 : resp.statusCode ≠ 403 := by omega
      unfold executeRequestStatus
      rw [if_neg h400, if_neg h403,
        if_neg (show ¬(resp.statusCode ≠ 200 ∧ resp.statusCode ≠ 202 ∧
          resp.statusCode ≠ 201) by omega)]
  · intro h400
    constructor
    · unfold executeRequestStatus
      rw [if_pos h400]
    · rfl
  · intro h401
    constructor
    · unfold executeRequestStatus
      rw [if_neg (by omega : resp.statusCode ≠ 400),
        if_neg (by omega : resp.statusCode ≠ 403),
        if_pos (show resp.statusCode ≠ 200 ∧ resp.statusCode ≠ 202 ∧
          resp.statusCode ≠ 201 by omega), h401]
    · rfl
  · intro data h403 hov
    unfold executeRequestStatus
    rw [if_neg (by omega : resp.statusCode ≠ 400), if_pos h403, hov]
  · intro hmem
    simp only [List.mem_cons, List.not_mem_nil, or_false, not_or] at hmem
    obtain ⟨h200, h201, h202, h400, h403⟩ := hmem
    unfold executeRequestStatus
    rw [if_neg h400, if_neg h403, if_pos ⟨h200, h202, h201⟩]

/-- Witness for C9: a 400 response with body `oops` yields the
bad-request error carrying it; a 200 response is returned as-is. -/
theorem http_status_taxonomy_witness :
    executeRequestStatus "GET" "http://h:8091/pools" resp400 =
      .httpErr ⟨400, "GET", "http://h:8091/pools", "oops"⟩
    ∧ executeRequestStatus "GET" "http://h:8091/pools" respOK = .ok respOK := by
  constructor
  · exact ((http_status_taxonomy "GET" "http://h:8091/pools" resp400).2.1 rfl).1
  · exact (http_status_taxonomy "GET" "http://h:8091/pools" respOK).1.mpr (Or.inl rfl)
